import Mathlib

/-!
Verification of the ModernTensor client layer: a shallow embedding of
`examples/python_client.py` (the `ModernTensorClient` facade) and
`quick_start.py` (the linear orchestration script), with theorems about
the view-decode schemas, the transaction payloads, the error-propagation
policy and the control flow of the orchestration run.
-/

/-- The fixed contract address shared by both scripts. -/
def CONTRACT_ADDRESS : String :=
  "0x9ba2d796ed64ea00a4f7690be844174820e0729de9f37fcaae429bc15ac37c04"

namespace Client

/-- A dynamic Python value as it appears in argument lists and decoded
view results (ints, strings, byte strings, booleans, None). Byte strings
are identified with the UTF-8 text they were encoded from. -/
inductive PyVal
  | int (n : Nat)
  | str (s : String)
  | bytes (s : String)
  | boolean (b : Bool)
  | none
deriving DecidableEq, Repr

/-- Exceptions observable at the client layer: an error raised by the
gateway (RestClient), an IndexError while indexing a result tuple, or an
AttributeError from calling .encode() on a non-string. -/
inductive ClientError
  | gateway (msg : String)
  | indexError
  | attributeError
deriving DecidableEq, Repr

/-- The declared wire type of a transaction argument, as chosen by the
Serializer passed to each TransactionArgument in the source. -/
inductive WireType
  | u64
  | string
  | bytes
  | boolean
deriving DecidableEq, Repr

/-- An entry-function payload as built by EntryFunction.natural: module
identifier, function name, type arguments, and the ordered list of
(value, declared wire type) pairs. Byte-level serialization happens in
the external SDK and is kept symbolic here. -/
structure EntryPayload where
  module : String
  function : String
  typeArgs : List String
  args : List (PyVal × WireType)
deriving DecidableEq, Repr

/-- The gateway view operation: function identifier and positional
arguments, returning the decoded result tuple or raising. -/
def ViewFn : Type := String → List PyVal → Except ClientError (List PyVal)

/-- The gateway submission pipeline (sign, submit, wait): one payload in,
a transaction hash out, or an exception. -/
def SubmitFn : Type := EntryPayload → Except ClientError String

/-- Decoded record of get_enhanced_network_stats. -/
structure NetworkStats where
  total_validators : PyVal
  total_miners : PyVal
  total_subnets : PyVal
  total_stake : PyVal
  active_validators : PyVal
  active_miners : PyVal
deriving DecidableEq, Repr

/-- Decoded record of get_registration_fee_info. -/
structure FeeInfo where
  miner_fee : PyVal
  validator_fee : PyVal
  subnet_fee : PyVal
  permit_fee : PyVal
deriving DecidableEq, Repr

/-- Decoded record of get_treasury_stats. -/
structure TreasuryStats where
  total_burned : PyVal
  total_treasury_fees : PyVal
  total_registrations : PyVal
  total_permits : PyVal
deriving DecidableEq, Repr

/-- Decoded record of get_subnet_info. -/
structure SubnetInfo where
  subnet_id : PyVal
  name : PyVal
  description : PyVal
  max_validators : PyVal
  max_miners : PyVal
  current_validators : PyVal
  current_miners : PyVal
deriving DecidableEq, Repr

/-- ModernTensorClient.get_balance: returns the queried balance, and on
any exception prints the error and returns 0. Total by construction,
mirroring that the method never raises. -/
def get_balance (balanceQuery : Except ClientError Nat) : Nat :=
  match balanceQuery with
  | Except.ok balance => balance
  | Except.error _ => 0

/-- ModernTensorClient.get_network_stats: calls view on
get_enhanced_network_stats with no arguments and decodes the result
tuple positionally; any exception is printed and re-raised. -/
def get_network_stats (view : ViewFn) : Except ClientError NetworkStats :=
  match view (CONTRACT_ADDRESS ++ "::moderntensor::get_enhanced_network_stats") [] with
  | Except.error e => Except.error e
  | Except.ok result =>
    match result with
    | r0 :: r1 :: r2 :: r3 :: r4 :: r5 :: _ =>
      Except.ok ⟨r0, r1, r2, r3, r4, r5⟩
    | _ => Except.error ClientError.indexError

/-- ModernTensorClient.get_fee_info: calls view on
get_registration_fee_info and decodes positions 0..3; any exception is
printed and re-raised. -/
def get_fee_info (view : ViewFn) : Except ClientError FeeInfo :=
  match view (CONTRACT_ADDRESS ++ "::moderntensor::get_registration_fee_info") [] with
  | Except.error e => Except.error e
  | Except.ok result =>
    match result with
    | r0 :: r1 :: r2 :: r3 :: _ => Except.ok ⟨r0, r1, r2, r3⟩
    | _ => Except.error ClientError.indexError

/-- ModernTensorClient.get_treasury_stats: calls view on
get_treasury_stats and decodes positions 0..3; any exception is printed
and re-raised. -/
def get_treasury_stats (view : ViewFn) : Except ClientError TreasuryStats :=
  match view (CONTRACT_ADDRESS ++ "::moderntensor::get_treasury_stats") [] with
  | Except.error e => Except.error e
  | Except.ok result =>
    match result with
    | r0 :: r1 :: r2 :: r3 :: _ => Except.ok ⟨r0, r1, r2, r3⟩
    | _ => Except.error ClientError.indexError

/-- ModernTensorClient.get_subnet_info: calls view on get_subnet_info
with the single positional argument subnet_id and decodes positions
0..6; any exception is printed and re-raised. -/
def get_subnet_info (view : ViewFn) (subnet_id : Nat) : Except ClientError SubnetInfo :=
  match view (CONTRACT_ADDRESS ++ "::moderntensor::get_subnet_info") [PyVal.int subnet_id] with
  | Except.error e => Except.error e
  | Except.ok result =>
    match result with
    | r0 :: r1 :: r2 :: r3 :: r4 :: r5 :: r6 :: _ =>
      Except.ok ⟨r0, r1, r2, r3, r4, r5, r6⟩
    | _ => Except.error ClientError.indexError

/-- Python .encode() on a dynamic value: UTF-8 bytes for a string,
AttributeError otherwise. -/
def pyEncode : PyVal → Except ClientError PyVal
  | PyVal.str s => Except.ok (PyVal.bytes s)
  | _ => Except.error ClientError.attributeError

/-- The payload built by ModernTensorClient.create_subnet via
EntryFunction.natural: the 8 TransactionArgument pairs in source order.
Arguments are dynamic values, as in Python; the method itself performs
no schema validation on them. -/
def createSubnetPayload (subnet_id name description max_validators max_miners
    min_stake_validator min_stake_miner permits_required : PyVal) : EntryPayload :=
  { module := CONTRACT_ADDRESS ++ "::moderntensor"
    function := "create_subnet"
    typeArgs := []
    args := [(subnet_id, WireType.u64), (name, WireType.string),
             (description, WireType.string), (max_validators, WireType.u64),
             (max_miners, WireType.u64), (min_stake_validator, WireType.u64),
             (min_stake_miner, WireType.u64), (permits_required, WireType.boolean)] }

/-- ModernTensorClient.create_subnet: builds the payload, signs and
submits it exactly once, waits, and returns the hash; any exception from
the pipeline is printed and re-raised. The second component records the
payloads handed to the submission pipeline by this call. -/
def create_subnet (submit : SubmitFn) (subnet_id name description max_validators
    max_miners min_stake_validator min_stake_miner permits_required : PyVal) :
    Except ClientError String × List EntryPayload :=
  (submit (createSubnetPayload subnet_id name description max_validators max_miners
      min_stake_validator min_stake_miner permits_required),
   [createSubnetPayload subnet_id name description max_validators max_miners
      min_stake_validator min_stake_miner permits_required])

/-- The payload built by ModernTensorClient.register_miner: uid,
wallet_hash and api_endpoint are passed through .encode(), which raises
on non-strings; the 5 TransactionArgument pairs follow source order. -/
def registerMinerPayload (uid subnet_id stake wallet_hash api_endpoint : PyVal) :
    Except ClientError EntryPayload := do
  let u ← pyEncode uid
  let w ← pyEncode wallet_hash
  let a ← pyEncode api_endpoint
  Except.ok
    { module := CONTRACT_ADDRESS ++ "::moderntensor"
      function := "register_miner"
      typeArgs := []
      args := [(u, WireType.bytes), (subnet_id, WireType.u64), (stake, WireType.u64),
               (w, WireType.bytes), (a, WireType.bytes)] }

/-- ModernTensorClient.register_miner: builds the payload (re-raising any
encoding error before submission), submits exactly once, returns the
hash or re-raises. Second component: payloads handed to submission. -/
def register_miner (submit : SubmitFn) (uid subnet_id stake wallet_hash api_endpoint : PyVal) :
    Except ClientError String × List EntryPayload :=
  match registerMinerPayload uid subnet_id stake wallet_hash api_endpoint with
  | Except.error e => (Except.error e, [])
  | Except.ok p => (submit p, [p])

/-- The payload built by ModernTensorClient.register_validator: same
encoding as register_miner, with the extra bond argument; the 6
TransactionArgument pairs follow source order. -/
def registerValidatorPayload (uid subnet_id stake bond wallet_hash api_endpoint : PyVal) :
    Except ClientError EntryPayload := do
  let u ← pyEncode uid
  let w ← pyEncode wallet_hash
  let a ← pyEncode api_endpoint
  Except.ok
    { module := CONTRACT_ADDRESS ++ "::moderntensor"
      function := "register_validator"
      typeArgs := []
      args := [(u, WireType.bytes), (subnet_id, WireType.u64), (stake, WireType.u64),
               (bond, WireType.u64), (w, WireType.bytes), (a, WireType.bytes)] }

/-- ModernTensorClient.register_validator: builds the payload, submits
exactly once, returns the hash or re-raises. -/
def register_validator (submit : SubmitFn) (uid subnet_id stake bond wallet_hash
    api_endpoint : PyVal) : Except ClientError String × List EntryPayload :=
  match registerValidatorPayload uid subnet_id stake bond wallet_hash api_endpoint with
  | Except.error e => (Except.error e, [])
  | Except.ok p => (submit p, [p])

end Client

namespace QuickStart

/-- A typed CLI argument of an aptos move command, as written with
--args in quick_start.py. -/
inductive CliArg
  | u64 (n : Nat)
  | str (s : String)
  | hex (s : String)
  | boolean (b : Bool)
deriving DecidableEq, Repr

/-- One gateway command issued through run_cmd: whether it is a
read-only view or a transaction run, the fully qualified function
identifier, and its typed arguments. -/
structure Cmd where
  isView : Bool
  functionId : String
  args : List CliArg
deriving DecidableEq, Repr

/-- Step 1, 2 and 7: aptos move view on get_enhanced_network_stats. -/
def enhancedStatsCmd : Cmd :=
  { isView := true
    functionId := CONTRACT_ADDRESS ++ "::moderntensor::get_enhanced_network_stats"
    args := [] }

/-- Step 3: aptos move view on get_registration_fee_info. -/
def feeInfoCmd : Cmd :=
  { isView := true
    functionId := CONTRACT_ADDRESS ++ "::moderntensor::get_registration_fee_info"
    args := [] }

/-- Step 4: aptos move run on create_subnet with the literal arguments
of quick_start.py. -/
def createSubnetCmd : Cmd :=
  { isView := false
    functionId := CONTRACT_ADDRESS ++ "::moderntensor::create_subnet"
    args := [CliArg.u64 999, CliArg.str "Quick Start Subnet",
             CliArg.str "Test subnet created by quick start script",
             CliArg.u64 5, CliArg.u64 50, CliArg.u64 1000000, CliArg.u64 1000000,
             CliArg.boolean false] }

/-- Step 5: aptos move run on register_miner with the literal hex and
u64 arguments of quick_start.py. -/
def registerMinerCmd : Cmd :=
  { isView := false
    functionId := CONTRACT_ADDRESS ++ "::moderntensor::register_miner"
    args := [CliArg.hex "717569636b5f6d696e65725f31", CliArg.u64 999,
             CliArg.u64 10000000, CliArg.hex "717569636b5f6d696e65725f77616c6c6574",
             CliArg.hex "687474703a2f2f717569636b2d6d696e65722e6578616d706c652e636f6d"] }

/-- Step 6: aptos move run on register_validator with the literal
arguments of quick_start.py. -/
def registerValidatorCmd : Cmd :=
  { isView := false
    functionId := CONTRACT_ADDRESS ++ "::moderntensor::register_validator"
    args := [CliArg.hex "717569636b5f76616c696461746f725f31", CliArg.u64 999,
             CliArg.u64 50000000, CliArg.u64 10000000,
             CliArg.hex "717569636b5f76616c696461746f725f77616c6c6574",
             CliArg.hex "687474703a2f2f717569636b2d76616c696461746f722e6578616d706c652e636f6d"] }

/-- Step 7: aptos move view on get_subnet_info with u64:999. -/
def subnetInfoCmd : Cmd :=
  { isView := true
    functionId := CONTRACT_ADDRESS ++ "::moderntensor::get_subnet_info"
    args := [CliArg.u64 999] }

/-- Step 7: aptos move view on get_treasury_stats. -/
def treasuryStatsCmd : Cmd :=
  { isView := true
    functionId := CONTRACT_ADDRESS ++ "::moderntensor::get_treasury_stats"
    args := [] }

/-- An observable event of a quick_start run: run_cmd executed a command
with the given outcome (true when the exit status was zero), or the
script slept for the given number of seconds. -/
inductive Event
  | ran (c : Cmd) (ok : Bool)
  | slept (secs : Nat)
deriving DecidableEq, Repr

/-- A transaction-issuing step of main: run the command, and sleep 3
seconds only when run_cmd reported success. The oracle exec gives each
run_cmd invocation (numbered in program order) its outcome. -/
def txStep (exec : Nat → Cmd → Bool) (i : Nat) (c : Cmd) : List Event :=
  if exec i c then [Event.ran c true, Event.slept 3] else [Event.ran c false]

/-- The main function of quick_start.py, as the trace of gateway
commands and sleeps it produces together with its process exit status.
run_cmd invocations are numbered 0..8 in program order; exec tells
whether each one succeeds. If the step-1 deployment check fails, main
prints a hint and calls sys.exit(1); otherwise every remaining step runs
unconditionally and the script finishes with exit status 0. -/
def quickStartMain (exec : Nat → Cmd → Bool) : List Event × Nat :=
  if exec 0 enhancedStatsCmd then
    (Event.ran enhancedStatsCmd true ::
     Event.ran enhancedStatsCmd (exec 1 enhancedStatsCmd) ::
     Event.ran feeInfoCmd (exec 2 feeInfoCmd) ::
     (txStep exec 3 createSubnetCmd ++
      txStep exec 4 registerMinerCmd ++
      txStep exec 5 registerValidatorCmd ++
      [Event.ran enhancedStatsCmd (exec 6 enhancedStatsCmd),
       Event.ran subnetInfoCmd (exec 7 subnetInfoCmd),
       Event.ran treasuryStatsCmd (exec 8 treasuryStatsCmd)]), 0)
  else
    ([Event.ran enhancedStatsCmd false], 1)

/-- Whether an event is a sleep. -/
def isSleep : Event → Bool
  | Event.slept _ => true
  | Event.ran _ _ => false

/-- Whether a trace starts with a sleep event. -/
def headIsSleep : List Event → Bool
  | e :: _ => isSleep e
  | [] => false

/-- Whether, in the given trace, every execution of command c is
immediately followed by a sleep event. -/
def pausesAfter (c : Cmd) : List Event → Bool
  | [] => true
  | Event.ran c2 _ :: rest =>
    if c2 = c then headIsSleep rest && pausesAfter c rest
    else pausesAfter c rest
  | Event.slept _ :: rest => pausesAfter c rest

end QuickStart

open Client QuickStart

/-- Claim C2: get_network_stats maps the raw result tuple positionally,
position 0 to total_validators through position 5 to active_miners, with
no transposition; extra trailing elements are ignored, exactly as
indexing positions 0..5 does in the source. -/
theorem get_network_stats_positional (view : ViewFn)
    (r0 r1 r2 r3 r4 r5 : PyVal) (rest : List PyVal)
    (h : view (CONTRACT_ADDRESS ++ "::moderntensor::get_enhanced_network_stats") [] =
      Except.ok (r0 :: r1 :: r2 :: r3 :: r4 :: r5 :: rest)) :
    get_network_stats view = Except.ok ⟨r0, r1, r2, r3, r4, r5⟩ := by
  simp [get_network_stats, h]

/-- Witness for C2: the raw tuple (3, 10, 2, 500000000, 3, 8) decodes to
total_validators 3, total_miners 10, total_subnets 2, total_stake
500000000, active_validators 3, active_miners 8. -/
theorem get_network_stats_positional_witness :
    get_network_stats (fun _ _ => Except.ok
      [PyVal.int 3, PyVal.int 10, PyVal.int 2, PyVal.int 500000000,
       PyVal.int 3, PyVal.int 8]) =
    Except.ok ⟨PyVal.int 3, PyVal.int 10, PyVal.int 2, PyVal.int 500000000,
      PyVal.int 3, PyVal.int 8⟩ :=
  get_network_stats_positional _ _ _ _ _ _ _ _ rfl

/-- Claim C7: get_fee_info maps positions 0..3 to miner_fee,
validator_fee, subnet_fee, permit_fee; get_treasury_stats maps positions
0..3 to total_burned, total_treasury_fees, total_registrations,
total_permits; and for every subnet_id, get_subnet_info maps positions
0..6 to subnet_id, name, description, max_validators, max_miners,
current_validators, current_miners, purely positionally. -/
theorem view_decodes_positional (view : ViewFn) (sid : Nat)
    (f0 f1 f2 f3 t0 t1 t2 t3 s0 s1 s2 s3 s4 s5 s6 : PyVal)
    (restF restT restS : List PyVal)
    (hf : view (CONTRACT_ADDRESS ++ "::moderntensor::get_registration_fee_info") [] =
      Except.ok (f0 :: f1 :: f2 :: f3 :: restF))
    (ht : view (CONTRACT_ADDRESS ++ "::moderntensor::get_treasury_stats") [] =
      Except.ok (t0 :: t1 :: t2 :: t3 :: restT))
    (hs : view (CONTRACT_ADDRESS ++ "::moderntensor::get_subnet_info") [PyVal.int sid] =
      Except.ok (s0 :: s1 :: s2 :: s3 :: s4 :: s5 :: s6 :: restS)) :
    get_fee_info view = Except.ok ⟨f0, f1, f2, f3⟩ ∧
    get_treasury_stats view = Except.ok ⟨t0, t1, t2, t3⟩ ∧
    get_subnet_info view sid = Except.ok ⟨s0, s1, s2, s3, s4, s5, s6⟩ := by
  refine ⟨?_, ?_, ?_⟩
  · simp [get_fee_info, hf]
  · simp [get_treasury_stats, ht]
  · simp [get_subnet_info, hs]

/-- Witness for C7: a gateway answering every view with the tuple
(1, 2, 3, 4, 5, 6, 7) yields the positional decodes of all three
operations at subnet_id 999. -/
theorem view_decodes_positional_witness :
    get_fee_info (fun _ _ => Except.ok
        [PyVal.int 1, PyVal.int 2, PyVal.int 3, PyVal.int 4, PyVal.int 5,
         PyVal.int 6, PyVal.int 7]) =
      Except.ok ⟨PyVal.int 1, PyVal.int 2, PyVal.int 3, PyVal.int 4⟩ ∧
    get_treasury_stats (fun _ _ => Except.ok
        [PyVal.int 1, PyVal.int 2, PyVal.int 3, PyVal.int 4, PyVal.int 5,
         PyVal.int 6, PyVal.int 7]) =
      Except.ok ⟨PyVal.int 1, PyVal.int 2, PyVal.int 3, PyVal.int 4⟩ ∧
    get_subnet_info (fun _ _ => Except.ok
        [PyVal.int 1, PyVal.int 2, PyVal.int 3, PyVal.int 4, PyVal.int 5,
         PyVal.int 6, PyVal.int 7]) 999 =
      Except.ok ⟨PyVal.int 1, PyVal.int 2, PyVal.int 3, PyVal.int 4, PyVal.int 5,
        PyVal.int 6, PyVal.int 7⟩ :=
  view_decodes_positional _ 999 _ _ _ _ _ _ _ _ _ _ _ _ _ _ _ _ _ _ rfl rfl rfl

/-- Claim C9: whenever the underlying gateway view call raises, each of
the four view facade operations re-raises that same error to its caller
instead of returning a fabricated result. -/
theorem view_errors_propagate (view : ViewFn) (sid : Nat) (e : ClientError)
    (hn : view (CONTRACT_ADDRESS ++ "::moderntensor::get_enhanced_network_stats") [] =
      Except.error e)
    (hf : view (CONTRACT_ADDRESS ++ "::moderntensor::get_registration_fee_info") [] =
      Except.error e)
    (ht : view (CONTRACT_ADDRESS ++ "::moderntensor::get_treasury_stats") [] =
      Except.error e)
    (hs : view (CONTRACT_ADDRESS ++ "::moderntensor::get_subnet_info") [PyVal.int sid] =
      Except.error e) :
    get_network_stats view = Except.error e ∧
    get_fee_info view = Except.error e ∧
    get_treasury_stats view = Except.error e ∧
    get_subnet_info view sid = Except.error e := by
  refine ⟨?_, ?_, ?_, ?_⟩
  · simp [get_network_stats, hn]
  · simp [get_fee_info, hf]
  · simp [get_treasury_stats, ht]
  · simp [get_subnet_info, hs]

/-- Witness for C9: against a gateway that raises on every view, all
four facade operations re-raise that error at subnet_id 999. -/
theorem view_errors_propagate_witness :
    get_network_stats (fun _ _ => Except.error (ClientError.gateway "unreachable")) =
      Except.error (ClientError.gateway "unreachable") ∧
    get_fee_info (fun _ _ => Except.error (ClientError.gateway "unreachable")) =
      Except.error (ClientError.gateway "unreachable") ∧
    get_treasury_stats (fun _ _ => Except.error (ClientError.gateway "unreachable")) =
      Except.error (ClientError.gateway "unreachable") ∧
    get_subnet_info (fun _ _ => Except.error (ClientError.gateway "unreachable")) 999 =
      Except.error (ClientError.gateway "unreachable") :=
  view_errors_propagate _ 999 (ClientError.gateway "unreachable") rfl rfl rfl rfl

/-- Claim C10: get_balance is total and never raises; every failure of
the underlying balance query yields 0, a successful query yields the
balance, so at the public interface a fetch failure is indistinguishable
from a genuinely zero balance. -/
theorem get_balance_zero_on_failure :
    (∀ e, get_balance (Except.error e) = 0) ∧
    (∀ n, get_balance (Except.ok n) = n) ∧
    (∀ e, get_balance (Except.error e) = get_balance (Except.ok 0)) :=
  ⟨fun _ => rfl, fun _ => rfl, fun _ => rfl⟩

/-- Claim C5: every create_subnet call hands exactly one payload to the
submission pipeline, whose 8 typed arguments appear in exactly the order
subnet_id:u64, name:string, description:string, max_validators:u64,
max_miners:u64, min_stake_validator:u64, min_stake_miner:u64,
permits_required:bool; the quick_start CLI call with arguments
(999, Quick Start Subnet, ..., 5, 50, 1000000, 1000000, false) uses the
same order and wire types. -/
theorem create_subnet_payload_order :
    (∀ (submit : SubmitFn) (subnet_id name description max_validators max_miners
        min_stake_validator min_stake_miner permits_required : PyVal),
      (create_subnet submit subnet_id name description max_validators max_miners
          min_stake_validator min_stake_miner permits_required).2 =
        [{ module := CONTRACT_ADDRESS ++ "::moderntensor"
           function := "create_subnet"
           typeArgs := []
           args := [(subnet_id, WireType.u64), (name, WireType.string),
                    (description, WireType.string), (max_validators, WireType.u64),
                    (max_miners, WireType.u64), (min_stake_validator, WireType.u64),
                    (min_stake_miner, WireType.u64),
                    (permits_required, WireType.boolean)] }]) ∧
    createSubnetCmd.args =
      [CliArg.u64 999, CliArg.str "Quick Start Subnet",
       CliArg.str "Test subnet created by quick start script",
       CliArg.u64 5, CliArg.u64 50, CliArg.u64 1000000, CliArg.u64 1000000,
       CliArg.boolean false] :=
  ⟨fun _ _ _ _ _ _ _ _ _ => rfl, rfl⟩

/-- Claim C6: every register_miner call submits its typed arguments in
exactly the order uid:bytes, subnet_id:u64, stake:u64, wallet_hash:bytes,
api_endpoint:bytes, and every register_validator call submits its typed
arguments in exactly the order uid:bytes, subnet_id:u64, stake:u64,
bond:u64, wallet_hash:bytes, api_endpoint:bytes, where the three string
arguments are passed through UTF-8 encoding. -/
theorem register_payload_order :
    (∀ (submit : SubmitFn) (uid wallet_hash api_endpoint : String)
        (subnet_id stake : PyVal),
      (register_miner submit (PyVal.str uid) subnet_id stake
          (PyVal.str wallet_hash) (PyVal.str api_endpoint)).2 =
        [{ module := CONTRACT_ADDRESS ++ "::moderntensor"
           function := "register_miner"
           typeArgs := []
           args := [(PyVal.bytes uid, WireType.bytes), (subnet_id, WireType.u64),
                    (stake, WireType.u64), (PyVal.bytes wallet_hash, WireType.bytes),
                    (PyVal.bytes api_endpoint, WireType.bytes)] }]) ∧
    (∀ (submit : SubmitFn) (uid wallet_hash api_endpoint : String)
        (subnet_id stake bond : PyVal),
      (register_validator submit (PyVal.str uid) subnet_id stake bond
          (PyVal.str wallet_hash) (PyVal.str api_endpoint)).2 =
        [{ module := CONTRACT_ADDRESS ++ "::moderntensor"
           function := "register_validator"
           typeArgs := []
           args := [(PyVal.bytes uid, WireType.bytes), (subnet_id, WireType.u64),
                    (stake, WireType.u64), (bond, WireType.u64),
                    (PyVal.bytes wallet_hash, WireType.bytes),
                    (PyVal.bytes api_endpoint, WireType.bytes)] }]) :=
  ⟨fun _ _ _ _ _ _ => rfl, fun _ _ _ _ _ _ _ => rfl⟩

/-- Counterexample for C3: create_subnet called with the string 999
where uint64 is expected for subnet_id is not rejected locally: the call
still hands exactly one payload, containing the mismatched argument
under the declared wire type u64, to the submission pipeline, and its
outcome is whatever the gateway answers. -/
theorem create_subnet_no_local_rejection :
    (create_subnet (fun _ => Except.ok "0xhash") (PyVal.str "999")
        (PyVal.str "Quick Start Subnet") (PyVal.str "...") (PyVal.int 5)
        (PyVal.int 50) (PyVal.int 1000000) (PyVal.int 1000000)
        (PyVal.boolean false)).2 ≠ [] ∧
    ((create_subnet (fun _ => Except.ok "0xhash") (PyVal.str "999")
        (PyVal.str "Quick Start Subnet") (PyVal.str "...") (PyVal.int 5)
        (PyVal.int 50) (PyVal.int 1000000) (PyVal.int 1000000)
        (PyVal.boolean false)).2.map (fun p => p.args.head?)) =
      [some (PyVal.str "999", WireType.u64)] ∧
    (create_subnet (fun _ => Except.ok "0xhash") (PyVal.str "999")
        (PyVal.str "Quick Start Subnet") (PyVal.str "...") (PyVal.int 5)
        (PyVal.int 50) (PyVal.int 1000000) (PyVal.int 1000000)
        (PyVal.boolean false)).1 = Except.ok "0xhash" := by
  refine ⟨?_, rfl, rfl⟩
  simp [create_subnet]

/-- Amended C3: the Transaction Builder performs no local wire-type
validation for create_subnet: a call whose subnet_id argument is not an
integer is still built and handed unchanged to the submission pipeline
(exactly once), its outcome decided by the gateway; the mismatch is
rejected remotely, not detected locally. -/
theorem create_subnet_mismatch_still_submitted (submit : SubmitFn)
    (subnet_id name description max_validators max_miners min_stake_validator
      min_stake_miner permits_required : PyVal)
    (h : ∀ n, subnet_id ≠ PyVal.int n) :
    (create_subnet submit subnet_id name description max_validators max_miners
        min_stake_validator min_stake_miner permits_required).2 =
      [createSubnetPayload subnet_id name description max_validators max_miners
        min_stake_validator min_stake_miner permits_required] ∧
    (create_subnet submit subnet_id name description max_validators max_miners
        min_stake_validator min_stake_miner permits_required).1 =
      submit (createSubnetPayload subnet_id name description max_validators
        max_miners min_stake_validator min_stake_miner permits_required) :=
  ⟨rfl, rfl⟩

/-- Witness for the amended C3, at subnet_id given as the string 999. -/
theorem create_subnet_mismatch_still_submitted_witness :
    (∀ n, PyVal.str "999" ≠ PyVal.int n) ∧
    ((create_subnet (fun _ => Except.ok "0xhash") (PyVal.str "999")
        (PyVal.str "n") (PyVal.str "d") (PyVal.int 5) (PyVal.int 50)
        (PyVal.int 1000000) (PyVal.int 1000000) (PyVal.boolean false)).2 =
      [createSubnetPayload (PyVal.str "999") (PyVal.str "n") (PyVal.str "d")
        (PyVal.int 5) (PyVal.int 50) (PyVal.int 1000000) (PyVal.int 1000000)
        (PyVal.boolean false)] ∧
    (create_subnet (fun _ => Except.ok "0xhash") (PyVal.str "999")
        (PyVal.str "n") (PyVal.str "d") (PyVal.int 5) (PyVal.int 50)
        (PyVal.int 1000000) (PyVal.int 1000000) (PyVal.boolean false)).1 =
      (fun _ => Except.ok "0xhash")
        (createSubnetPayload (PyVal.str "999") (PyVal.str "n") (PyVal.str "d")
          (PyVal.int 5) (PyVal.int 50) (PyVal.int 1000000) (PyVal.int 1000000)
          (PyVal.boolean false))) :=
  ⟨fun _ hn => PyVal.noConfusion hn,
   create_subnet_mismatch_still_submitted _ _ _ _ _ _ _ _ _
     (fun _ hn => PyVal.noConfusion hn)⟩

/-- Claim C1: if the deployment-check view of step 1 fails, main prints
a hint and exits with status 1 at once: the whole run consists of that
single failed command, no later step is ever attempted, and the process
exit status is non-zero. -/
theorem check_deployment_fail_fast (exec : Nat → Cmd → Bool)
    (h : exec 0 enhancedStatsCmd = false) :
    quickStartMain exec = ([Event.ran enhancedStatsCmd false], 1) ∧
    (quickStartMain exec).2 ≠ 0 := by
  refine ⟨?_, ?_⟩ <;> simp [quickStartMain, h]

/-- Witness for C1: with a gateway on which every command fails, the run
is the single failed deployment check with exit status 1. -/
theorem check_deployment_fail_fast_witness :
    quickStartMain (fun _ _ => false) = ([Event.ran enhancedStatsCmd false], 1) ∧
    (quickStartMain (fun _ _ => false)).2 ≠ 0 :=
  check_deployment_fail_fast (fun _ _ => false) rfl

/-- Claim C4: once the deployment check passes, a failure of the
register_miner step is recorded in the run and the workflow still
advances: the register_validator command and all three final statistics
commands are attempted regardless, and the process exit status is 0. -/
theorem register_miner_failure_tolerated (exec : Nat → Cmd → Bool)
    (hcheck : exec 0 enhancedStatsCmd = true)
    (hminer : exec 4 registerMinerCmd = false) :
    (quickStartMain exec).2 = 0 ∧
    Event.ran registerMinerCmd false ∈ (quickStartMain exec).1 ∧
    Event.ran registerValidatorCmd (exec 5 registerValidatorCmd) ∈
      (quickStartMain exec).1 ∧
    Event.ran enhancedStatsCmd (exec 6 enhancedStatsCmd) ∈ (quickStartMain exec).1 ∧
    Event.ran subnetInfoCmd (exec 7 subnetInfoCmd) ∈ (quickStartMain exec).1 ∧
    Event.ran treasuryStatsCmd (exec 8 treasuryStatsCmd) ∈ (quickStartMain exec).1 := by
  cases h3 : exec 3 createSubnetCmd <;> cases h5 : exec 5 registerValidatorCmd <;>
    simp [quickStartMain, txStep, hcheck, hminer, h3, h5]

/-- Witness for C4: with a gateway on which exactly the register_miner
command fails, the validator registration and the three final reads are
still attempted and the run exits 0. -/
theorem register_miner_failure_tolerated_witness :
    (quickStartMain (fun i _ => i != 4)).2 = 0 ∧
    Event.ran registerMinerCmd false ∈ (quickStartMain (fun i _ => i != 4)).1 ∧
    Event.ran registerValidatorCmd true ∈ (quickStartMain (fun i _ => i != 4)).1 ∧
    Event.ran enhancedStatsCmd true ∈ (quickStartMain (fun i _ => i != 4)).1 ∧
    Event.ran subnetInfoCmd true ∈ (quickStartMain (fun i _ => i != 4)).1 ∧
    Event.ran treasuryStatsCmd true ∈ (quickStartMain (fun i _ => i != 4)).1 :=
  register_miner_failure_tolerated (fun i _ => i != 4) rfl rfl

/-- Counterexample for C8: on a run where the deployment check passes
and the create_subnet submission fails, the create_subnet step is
attempted but is not followed by a sleep event, so the settle pause does
not happen regardless of the step outcome. -/
theorem settle_pause_not_unconditional :
    Event.ran createSubnetCmd false ∈ (quickStartMain (fun i _ => i != 3)).1 ∧
    pausesAfter createSubnetCmd (quickStartMain (fun i _ => i != 3)).1 = false := by
  refine ⟨?_, ?_⟩ <;> decide

/-- Amended C8: after a transaction-issuing step (create_subnet,
register_miner, register_validator) the workflow pauses for the fixed
3-second settle interval exactly when that submission succeeded; on a
failed submission the next step begins immediately, with no pause. -/
theorem settle_pause_iff_success (exec : Nat → Cmd → Bool)
    (h : exec 0 enhancedStatsCmd = true) :
    pausesAfter createSubnetCmd (quickStartMain exec).1 = exec 3 createSubnetCmd ∧
    pausesAfter registerMinerCmd (quickStartMain exec).1 = exec 4 registerMinerCmd ∧
    pausesAfter registerValidatorCmd (quickStartMain exec).1 =
      exec 5 registerValidatorCmd := by
  cases h3 : exec 3 createSubnetCmd <;> cases h4 : exec 4 registerMinerCmd <;>
    cases h5 : exec 5 registerValidatorCmd <;>
      simp only [quickStartMain, txStep, h, h3, h4, h5, if_true, if_false] <;>
        exact ⟨rfl, rfl, rfl⟩

/-- Witness for the amended C8: with a gateway on which every command
succeeds, each of the three transaction steps is followed by a pause. -/
theorem settle_pause_iff_success_witness :
    pausesAfter createSubnetCmd (quickStartMain (fun _ _ => true)).1 = true ∧
    pausesAfter registerMinerCmd (quickStartMain (fun _ _ => true)).1 = true ∧
    pausesAfter registerValidatorCmd (quickStartMain (fun _ _ => true)).1 = true :=
  settle_pause_iff_success (fun _ _ => true) rfl
